import Mathlib

/-!
Verification of the floating-overlay positioning and lifecycle code of the
zudyog-ui component library.  The definitions below are a shallow embedding
of the TypeScript source: pixel quantities are rationals (the computations
involved use only addition, subtraction, halving and comparisons, which the
host number type performs exactly on these inputs), DOM side effects are
modelled as explicit state passing, and event-listener registries are lists
of event names.
-/

/-- Immutable box snapshot, as returned by getBoundingClientRect:
top, left, width, height, with right and bottom derived. -/
structure Rect where
  top : ℚ
  left : ℚ
  width : ℚ
  height : ℚ
deriving DecidableEq

def Rect.right (r : Rect) : ℚ := r.left + r.width

def Rect.bottom (r : Rect) : ℚ := r.top + r.height

/-- The twelve members of the PopperPlacement string union in
src/components/Popper/index.tsx (also the PopoverPosition union). -/
def placementValues : List String :=
  ["top", "top-start", "top-end",
   "bottom", "bottom-start", "bottom-end",
   "left", "left-start", "left-end",
   "right", "right-start", "right-end"]

/-- The switch statement of updatePosition in Popper/index.tsx: base
(top, left) from the placement, anchor rect, popper rect and the
offset pair [offsetX, offsetY].  The placement is kept as a string,
exactly as in the source, so that values outside the union are
representable; the final branch is the switch default. -/
def popperBasePos (placement : String) (refRect popperRect : Rect)
    (offsetX offsetY : ℚ) : ℚ × ℚ :=
  if placement = "top" then
    (refRect.top - popperRect.height - offsetY,
     refRect.left + (refRect.width - popperRect.width) / 2 + offsetX)
  else if placement = "top-start" then
    (refRect.top - popperRect.height - offsetY, refRect.left + offsetX)
  else if placement = "top-end" then
    (refRect.top - popperRect.height - offsetY,
     refRect.right - popperRect.width + offsetX)
  else if placement = "bottom" then
    (refRect.bottom + offsetY,
     refRect.left + (refRect.width - popperRect.width) / 2 + offsetX)
  else if placement = "bottom-start" then
    (refRect.bottom + offsetY, refRect.left + offsetX)
  else if placement = "bottom-end" then
    (refRect.bottom + offsetY, refRect.right - popperRect.width + offsetX)
  else if placement = "left" then
    (refRect.top + (refRect.height - popperRect.height) / 2 + offsetY,
     refRect.left - popperRect.width - offsetX)
  else if placement = "left-start" then
    (refRect.top + offsetY, refRect.left - popperRect.width - offsetX)
  else if placement = "left-end" then
    (refRect.bottom - popperRect.height + offsetY,
     refRect.left - popperRect.width - offsetX)
  else if placement = "right" then
    (refRect.top + (refRect.height - popperRect.height) / 2 + offsetY,
     refRect.right + offsetX)
  else if placement = "right-start" then
    (refRect.top + offsetY, refRect.right + offsetX)
  else if placement = "right-end" then
    (refRect.bottom - popperRect.height + offsetY, refRect.right + offsetX)
  else
    (refRect.bottom + offsetY, refRect.left + offsetX)

/-- The preventOverflow modifier body of updatePosition in Popper/index.tsx:
clamp left against the right then the left viewport edge, and top against
the bottom then the top edge, each overflow correction landing 8px inside
the viewport. -/
def preventOverflowClamp (popperRect : Rect)
    (viewportWidth viewportHeight top left : ℚ) : ℚ × ℚ :=
  let left1 := if left + popperRect.width > viewportWidth then
    viewportWidth - popperRect.width - 8 else left
  let left2 := if left1 < 8 then 8 else left1
  let top1 := if top + popperRect.height > viewportHeight then
    viewportHeight - popperRect.height - 8 else top
  let top2 := if top1 < 8 then 8 else top1
  (top2, left2)

/-- The object passed to setPopperStyles (position and transform are
constant strings in the source and are omitted). -/
structure PopperStyles where
  top : ℚ
  left : ℚ
  matchedWidth : Option ℚ
deriving DecidableEq

/-- updatePosition in Popper/index.tsx: base position from the switch,
then the preventOverflow modifier when present with boundary viewport,
then the window scroll offsets, packaged as the styles object. -/
def popperUpdatePosition (placement : String) (preventOverflowViewport : Bool)
    (refRect popperRect : Rect) (innerWidth innerHeight scrollX scrollY : ℚ)
    (offsetX offsetY : ℚ) (matchWidth : Bool) : PopperStyles :=
  let base := popperBasePos placement refRect popperRect offsetX offsetY
  let pos := if preventOverflowViewport then
    preventOverflowClamp popperRect innerWidth innerHeight base.1 base.2
  else base
  { top := pos.1 + scrollY
    left := pos.2 + scrollX
    matchedWidth := if matchWidth then some refRect.width else none }

/-- The attributes of the div produced by popperContent in
Popper/index.tsx.  The style attribute is an Option because the
source has the style prop commented out (TODO), so no inline style is
emitted. -/
structure PopperRendered where
  className : String
  dataPlacement : String
  style : Option PopperStyles
  children : String
deriving DecidableEq

/-- popperContent in Popper/index.tsx: when open, a div carrying the
module class plus the caller class, data-placement set to the requested
placement, no inline style (the style prop that would have applied
popperStyles and zIndex is commented out), and the children; when
closed, nothing.  popperStyles and zIndex are in scope, as in the
component, but unreferenced by the emitted markup. -/
def popperContent (isOpen : Bool) (placement className : String)
    (popperStyles : PopperStyles) (zIndex : ℚ) (children : String) :
    Option PopperRendered :=
  if isOpen then
    some { className := "popper " ++ className
           dataPlacement := placement
           style := none
           children := children }
  else none

/-- The switch statement of updatePosition in the Popover component
(Drawer/index.tsx bundle): base (top, left) from the position string,
trigger rect, content rect and the scalar offset; the final branch is
the switch default (bottom, centered). -/
def popoverBasePos (position : String) (triggerRect contentRect : Rect)
    (offset : ℚ) : ℚ × ℚ :=
  if position = "top" then
    (triggerRect.top - contentRect.height - offset,
     triggerRect.left + triggerRect.width / 2 - contentRect.width / 2)
  else if position = "top-start" then
    (triggerRect.top - contentRect.height - offset, triggerRect.left)
  else if position = "top-end" then
    (triggerRect.top - contentRect.height - offset,
     triggerRect.right - contentRect.width)
  else if position = "right" then
    (triggerRect.top + triggerRect.height / 2 - contentRect.height / 2,
     triggerRect.right + offset)
  else if position = "right-start" then
    (triggerRect.top, triggerRect.right + offset)
  else if position = "right-end" then
    (triggerRect.bottom - contentRect.height, triggerRect.right + offset)
  else if position = "bottom" then
    (triggerRect.bottom + offset,
     triggerRect.left + triggerRect.width / 2 - contentRect.width / 2)
  else if position = "bottom-start" then
    (triggerRect.bottom + offset, triggerRect.left)
  else if position = "bottom-end" then
    (triggerRect.bottom + offset, triggerRect.right - contentRect.width)
  else if position = "left" then
    (triggerRect.top + triggerRect.height / 2 - contentRect.height / 2,
     triggerRect.left - contentRect.width - offset)
  else if position = "left-start" then
    (triggerRect.top, triggerRect.left - contentRect.width - offset)
  else if position = "left-end" then
    (triggerRect.bottom - contentRect.height,
     triggerRect.left - contentRect.width - offset)
  else
    (triggerRect.bottom + offset,
     triggerRect.left + triggerRect.width / 2 - contentRect.width / 2)

/-- The viewport adjustment of updatePosition in the Popover component:
each axis is nudged to at least 10px from the near edge, else pulled
back when the far edge passes 10px from the viewport end. -/
def popoverClamp (contentRect : Rect)
    (viewportWidth viewportHeight top left : ℚ) : ℚ × ℚ :=
  let left2 := if left < 10 then 10
    else if left + contentRect.width > viewportWidth - 10 then
      viewportWidth - contentRect.width - 10
    else left
  let top2 := if top < 10 then 10
    else if top + contentRect.height > viewportHeight - 10 then
      viewportHeight - contentRect.height - 10
    else top
  (top2, left2)

/-- updatePosition in the Popover component: switch, then viewport
adjustment; the result is written to the content element style. -/
def popoverUpdatePosition (position : String) (triggerRect contentRect : Rect)
    (offset viewportWidth viewportHeight : ℚ) : ℚ × ℚ :=
  let base := popoverBasePos position triggerRect contentRect offset
  popoverClamp contentRect viewportWidth viewportHeight base.1 base.2

/-- Observable state of one uncontrolled Popover instance: the
internalIsOpen flag plus counters for the onOpen and onClose callback
invocations the instance has made. -/
structure PopoverState where
  internalIsOpen : Bool
  onOpenCount : Nat
  onCloseCount : Nat
deriving DecidableEq

/-- handleToggle in the Popover component, for an uncontrolled instance:
flip internalIsOpen, then notify onOpen when the previous flag was
false and onClose when it was true. -/
def popoverHandleToggle (s : PopoverState) : PopoverState :=
  if s.internalIsOpen then
    { internalIsOpen := false
      onOpenCount := s.onOpenCount
      onCloseCount := s.onCloseCount + 1 }
  else
    { internalIsOpen := true
      onOpenCount := s.onOpenCount + 1
      onCloseCount := s.onCloseCount }

/-- handleClose in the Popover component, for an uncontrolled instance:
set internalIsOpen to false and invoke onClose, unconditionally. -/
def popoverHandleClose (s : PopoverState) : PopoverState :=
  { internalIsOpen := false
    onOpenCount := s.onOpenCount
    onCloseCount := s.onCloseCount + 1 }

/-- External events that can reach an uncontrolled Popover instance:
a trigger click (handleToggle), and the dismissal paths that all call
handleClose (outside mousedown, Escape keydown, scroll with
closeOnScroll, and a direct close). -/
inductive PopoverEvent
  | toggle
  | outsideClick
  | escKey
  | scrollDismiss
  | directClose
deriving DecidableEq

/-- One step of the Popover lifecycle: toggle runs handleToggle, every
other event runs handleClose. -/
def popoverStep (e : PopoverEvent) (s : PopoverState) : PopoverState :=
  match e with
  | .toggle => popoverHandleToggle s
  | _ => popoverHandleClose s

/-- The four-value overlay lifecycle enum of the specification. -/
inductive OverlayState
  | Closed
  | Opening
  | Open
  | Closing
deriving DecidableEq

/-- Modelled from the spec: the edges of the linear lifecycle chain
Closed to Opening to Open to Closing to Closed. -/
def chainEdge : OverlayState → OverlayState → Bool
  | .Closed, .Opening => true
  | .Opening, .Open => true
  | .Open, .Closing => true
  | .Closing, .Closed => true
  | _, _ => false

/-- Projection of the Popover boolean flag onto the lifecycle enum:
the code only ever exposes the two extreme states. -/
def popoverProj (internalIsOpen : Bool) : OverlayState :=
  if internalIsOpen then .Open else .Closed

/-- removeEventListener on a registry modelled as a list of event names
(one ClickAwayListener effect instance uses a single handler identity,
so a registration is identified by its event name): drop the first
matching registration. -/
def removeListener : List String → String → List String
  | [], _ => []
  | e :: rest, t => if e = t then rest else e :: removeListener rest t

/-- Result of running the ClickAwayListener effect body: the listeners
it attached to the document and the registeredEvents bookkeeping
array it built. -/
structure ClickAwayEffect where
  addedListeners : List String
  registeredEvents : List String
deriving DecidableEq

/-- The effect body of ClickAwayListener: when disabled it returns
before attaching anything; otherwise events.forEach attaches the
handler for each event name, while the registeredEvents.push call in
the same loop is commented out (TODO), leaving the bookkeeping array
empty. -/
def clickAwaySetup (disabled : Bool) (events : List String) :
    ClickAwayEffect :=
  if disabled then
    { addedListeners := [], registeredEvents := [] }
  else
    { addedListeners := events, registeredEvents := [] }

/-- The effect cleanup of ClickAwayListener applied to the current
document listener registry: registeredEvents.forEach removes each
recorded registration. -/
def clickAwayCleanup (eff : ClickAwayEffect) (doc : List String) :
    List String :=
  eff.registeredEvents.foldl removeListener doc

/-- The document listeners still attached after one full mount/unmount
cycle of a ClickAwayListener: the setup attaches its listeners to a
clean registry, then the cleanup runs. -/
def clickAwayOpenClose (disabled : Bool) (events : List String) :
    List String :=
  clickAwayCleanup (clickAwaySetup disabled events)
    (clickAwaySetup disabled events).addedListeners

/-- A DOM element as far as the Modal focus logic observes it: an
identity, whether it is currently attached to the document, and
whether it exposes a focus method (the source guard tests
membership of the focus property, not attachment). -/
structure DomElement where
  elemId : Nat
  attachedToDoc : Bool
  focusMethod : Bool
deriving DecidableEq

/-- The part of the Modal component state owned by its focus effect:
the previousActiveElement ref and the body scroll-lock class. -/
structure ModalFocusState where
  previousActiveElement : Option DomElement
  bodyOverflowHidden : Bool
deriving DecidableEq

/-- The focus-management effect of the Modal component.  On open it
stores document.activeElement into previousActiveElement and locks
body scrolling.  On close it calls focus() on the stored element
whenever the ref is non-null and the element has a focus property —
with no attachment check — and unlocks body scrolling; the ref is
never cleared.  The second component lists the focus() calls made on
the stored element. -/
def modalFocusEffect (isOpen : Bool) (activeElement : Option DomElement)
    (s : ModalFocusState) : ModalFocusState × List DomElement :=
  if isOpen then
    ({ previousActiveElement := activeElement, bodyOverflowHidden := true },
     [])
  else
    match s.previousActiveElement with
    | some e =>
      if e.focusMethod then
        ({ s with bodyOverflowHidden := false }, [e])
      else
        ({ s with bodyOverflowHidden := false }, [])
    | none => ({ s with bodyOverflowHidden := false }, [])

/-- A Slider value: a single number, or the [min, max] pair of a range
slider. -/
inductive SliderValue
  | single (v : ℚ)
  | pair (lo hi : ℚ)
deriving DecidableEq

/-- JavaScript Math.round: round to the nearest integer, ties toward
positive infinity. -/
def jsRound (q : ℚ) : ℤ := ⌊q + 1 / 2⌋

/-- getValueFromPercentage in the Slider component: linear
interpolation, snapping to the step grid with Math.round, then
clamping into [min, max] via Math.min and Math.max (written as
conditionals here to keep the frozen source names for the bounds). -/
def getValueFromPercentage (min max step percentage : ℚ) : ℚ :=
  let rawValue := min + percentage / 100 * (max - min)
  let steppedValue := (jsRound (rawValue / step) : ℚ) * step
  let maxOfMin := if steppedValue < min then min else steppedValue
  if max < maxOfMin then max else maxOfMin

/-- handleTrackClick in the Slider component.  Inputs mirror the
component props and the click geometry; the result is the new
internalValue together with the list of onChange notifications.  In
the range-with-array branch the proximity-based updatedValue is
computed, but both the setInternalValue call and the onChange call on
it are commented out (TODO), so that branch changes nothing and
notifies nobody. -/
def handleTrackClick (disabled range isControlled : Bool)
    (min max step : ℚ) (clientX rectLeft rectWidth : ℚ)
    (internalValue : SliderValue) : SliderValue × List SliderValue :=
  if disabled then (internalValue, [])
  else
    let percentage := (clientX - rectLeft) / rectWidth * 100
    let newValue := getValueFromPercentage min max step percentage
    match internalValue with
    | .pair minVal maxVal =>
      if range then
        let minDistance := |newValue - minVal|
        let maxDistance := |newValue - maxVal|
        let updatedValue := if minDistance ≤ maxDistance then
          SliderValue.pair newValue maxVal else SliderValue.pair minVal newValue
        (internalValue, [])
      else
        ((if isControlled then internalValue else .single newValue),
         [.single newValue])
    | .single _ =>
      ((if isControlled then internalValue else .single newValue),
       [.single newValue])

/-- Claim C3: for anchor rect (100, 100, 50, 20), content rect of size
120 by 40, placement bottom-start, offset [0, 8] and an 800 by 600
viewport with the preventOverflow modifier, updatePosition yields
top = 128 and left = 100, and the rendered placement stays
bottom-start. -/
theorem claim3_scenario_bottom_start :
    popperUpdatePosition "bottom-start" true
      ⟨100, 100, 50, 20⟩ ⟨0, 0, 120, 40⟩ 800 600 0 0 0 8 false =
      { top := 128, left := 100, matchedWidth := none } ∧
    (popperContent true "bottom-start" "" ⟨128, 100, none⟩ 1000 "c").map
      PopperRendered.dataPlacement = some "bottom-start" := by
  refine ⟨?_, ?_⟩
  · simp [popperUpdatePosition, popperBasePos, preventOverflowClamp,
      Rect.bottom, Rect.right]
    norm_num
  · simp [popperContent]

/-- Bounds guaranteed by the Popper preventOverflow clamp when the
content fits with 8px clearance on each side: the near edges end at
least 8px inside the viewport, the far edges never pass the raw
viewport edge (the 8px far-edge clearance is only restored when the
box actually overflowed the raw edge). -/
theorem preventOverflowClamp_bounds (popperRect : Rect)
    (vw vh top left : ℚ)
    (hw : popperRect.width + 16 ≤ vw) (hh : popperRect.height + 16 ≤ vh) :
    8 ≤ (preventOverflowClamp popperRect vw vh top left).2 ∧
    (preventOverflowClamp popperRect vw vh top left).2 +
      popperRect.width ≤ vw ∧
    8 ≤ (preventOverflowClamp popperRect vw vh top left).1 ∧
    (preventOverflowClamp popperRect vw vh top left).1 +
      popperRect.height ≤ vh := by
  simp only [preventOverflowClamp]
  split_ifs <;>
    exact ⟨by linarith, by linarith, by linarith, by linarith⟩

/-- Bounds guaranteed by the Popover viewport adjustment when the
content fits with 10px clearance on each side: full containment in
the 10px-padded viewport. -/
theorem popoverClamp_bounds (contentRect : Rect) (vw vh top left : ℚ)
    (hw : contentRect.width + 20 ≤ vw) (hh : contentRect.height + 20 ≤ vh) :
    10 ≤ (popoverClamp contentRect vw vh top left).2 ∧
    (popoverClamp contentRect vw vh top left).2 +
      contentRect.width ≤ vw - 10 ∧
    10 ≤ (popoverClamp contentRect vw vh top left).1 ∧
    (popoverClamp contentRect vw vh top left).1 +
      contentRect.height ≤ vh - 10 := by
  simp only [popoverClamp]
  split_ifs <;>
    exact ⟨by linarith, by linarith, by linarith, by linarith⟩

/-- Claim C1, counterexample: in the cited scenario (anchor at top 580
with height 20, viewport 800 by 600, placement bottom, content height
100, offset [0, 8], preventOverflow active with its 8px padding), the
position computation clamps top to 492 inside the viewport and the
rendered effective placement (data-placement) stays bottom; it does
not become top, so no flip to the opposite side occurs. -/
theorem claim1_flip_counterexample :
    popperUpdatePosition "bottom" true ⟨580, 100, 50, 20⟩ ⟨0, 0, 120, 100⟩
      800 600 0 0 0 8 false =
      { top := 492, left := 65, matchedWidth := none } ∧
    (popperContent true "bottom" "cls" ⟨492, 65, none⟩ 1000 "c").map
      PopperRendered.dataPlacement = some "bottom" ∧
    ("bottom" : String) ≠ "top" := by
  refine ⟨?_, ?_, ?_⟩
  · simp [popperUpdatePosition, popperBasePos, preventOverflowClamp,
      Rect.bottom, Rect.right]
    norm_num
  · simp [popperContent]
  · decide

/-- Claim C1, amended: the position computation never flips the side;
for every requested placement the rendered effective placement
(data-placement) equals the requested one, and in the cited scenario
the main-axis overflow is resolved by the preventOverflow clamp
(top becomes 600 - 100 - 8 = 492) with the placement still bottom. -/
theorem claim1_amended_no_flip :
    (∀ (placement className : String) (st : PopperStyles) (z : ℚ)
       (ch : String),
      (popperContent true placement className st z ch).map
        PopperRendered.dataPlacement = some placement) ∧
    popperUpdatePosition "bottom" true ⟨580, 100, 50, 20⟩ ⟨0, 0, 120, 100⟩
      800 600 0 0 0 8 false =
      { top := 492, left := 65, matchedWidth := none } := by
  refine ⟨fun placement className st z ch => by simp [popperContent], ?_⟩
  simp [popperUpdatePosition, popperBasePos, preventOverflowClamp,
    Rect.bottom, Rect.right]
  norm_num

/-- Claim C2: evaluation of the code at the failing input.  A
ClickAwayListener mounted enabled with the default event list attaches
a mousedown and a touchstart listener to the document, and after its
cleanup runs both are still attached (the cleanup walks the
registeredEvents array, which stays empty because the push into it is
commented out), contradicting the claim that zero listeners remain. -/
theorem claim2_listener_leak :
    clickAwayOpenClose false ["mousedown", "touchstart"] =
      ["mousedown", "touchstart"] ∧
    (["mousedown", "touchstart"] : List String) ≠ [] ∧
    (clickAwaySetup false ["mousedown", "touchstart"]).registeredEvents
      = [] := by
  refine ⟨?_, by decide, ?_⟩ <;>
    simp [clickAwayOpenClose, clickAwayCleanup, clickAwaySetup]

/-- Claim C4, counterexample: content 100 by 50 fits in the 800 by 600
viewport padded by 8, anchor (240, 695, 10, 10), placement
bottom-start, offset [0, 8], preventOverflow active; the returned left
stays 695, so the content right edge sits at 795, outside
bounds.right - padding = 792: full containment in the padded box
fails. -/
theorem claim4_containment_counterexample :
    (100 : ℚ) + 2 * 8 ≤ 800 ∧ (50 : ℚ) + 2 * 8 ≤ 600 ∧
    popperUpdatePosition "bottom-start" true ⟨240, 695, 10, 10⟩
      ⟨0, 0, 100, 50⟩ 800 600 0 0 0 8 false =
      { top := 258, left := 695, matchedWidth := none } ∧
    ¬ ((695 : ℚ) + 100 ≤ 800 - 8) := by
  refine ⟨by norm_num, by norm_num, ?_, by norm_num⟩
  simp [popperUpdatePosition, popperBasePos, preventOverflowClamp,
    Rect.bottom, Rect.right]
  norm_num

/-- Claim C4, amended: when the content fits with clearance, the Popper
preventOverflow clamp keeps the box inside
[8, viewportWidth] by [8, viewportHeight] — at least the 8px padding
from the near (left/top) edges, never past the raw far edges, but
without a guaranteed 8px clearance at the far edges — while the
Popover viewport adjustment keeps the box fully inside the
10px-padded viewport on both axes. -/
theorem claim4_amended_containment (popperRect contentRect : Rect)
    (vw vh ptop pleft qtop qleft : ℚ)
    (h1 : popperRect.width + 16 ≤ vw) (h2 : popperRect.height + 16 ≤ vh)
    (h3 : contentRect.width + 20 ≤ vw) (h4 : contentRect.height + 20 ≤ vh) :
    (8 ≤ (preventOverflowClamp popperRect vw vh ptop pleft).2 ∧
     (preventOverflowClamp popperRect vw vh ptop pleft).2 +
       popperRect.width ≤ vw ∧
     8 ≤ (preventOverflowClamp popperRect vw vh ptop pleft).1 ∧
     (preventOverflowClamp popperRect vw vh ptop pleft).1 +
       popperRect.height ≤ vh) ∧
    (10 ≤ (popoverClamp contentRect vw vh qtop qleft).2 ∧
     (popoverClamp contentRect vw vh qtop qleft).2 +
       contentRect.width ≤ vw - 10 ∧
     10 ≤ (popoverClamp contentRect vw vh qtop qleft).1 ∧
     (popoverClamp contentRect vw vh qtop qleft).1 +
       contentRect.height ≤ vh - 10) :=
  ⟨preventOverflowClamp_bounds popperRect vw vh ptop pleft h1 h2,
   popoverClamp_bounds contentRect vw vh qtop qleft h3 h4⟩

/-- Claim C4, amended, witness at the scenario content 100 by 50 in an
800 by 600 viewport with candidate position (608, 695). -/
theorem claim4_amended_containment_witness :
    (8 ≤ (preventOverflowClamp ⟨0, 0, 100, 50⟩ 800 600 608 695).2 ∧
     (preventOverflowClamp ⟨0, 0, 100, 50⟩ 800 600 608 695).2 +
       (⟨0, 0, 100, 50⟩ : Rect).width ≤ 800 ∧
     8 ≤ (preventOverflowClamp ⟨0, 0, 100, 50⟩ 800 600 608 695).1 ∧
     (preventOverflowClamp ⟨0, 0, 100, 50⟩ 800 600 608 695).1 +
       (⟨0, 0, 100, 50⟩ : Rect).height ≤ 600) ∧
    (10 ≤ (popoverClamp ⟨0, 0, 100, 50⟩ 800 600 608 695).2 ∧
     (popoverClamp ⟨0, 0, 100, 50⟩ 800 600 608 695).2 +
       (⟨0, 0, 100, 50⟩ : Rect).width ≤ 800 - 10 ∧
     10 ≤ (popoverClamp ⟨0, 0, 100, 50⟩ 800 600 608 695).1 ∧
     (popoverClamp ⟨0, 0, 100, 50⟩ 800 600 608 695).1 +
       (⟨0, 0, 100, 50⟩ : Rect).height ≤ 600 - 10) :=
  claim4_amended_containment ⟨0, 0, 100, 50⟩ ⟨0, 0, 100, 50⟩ 800 600
    608 695 608 695 (by norm_num) (by norm_num) (by norm_num) (by norm_num)

/-- Claim C5, counterexample: starting from an open uncontrolled
Popover with one recorded onClose, a second consecutive handleClose
yields a different end state than a single one — the onClose counter
reaches 2 instead of 1 — so the second call does trigger an
additional onClose notification and close on an already-closed
instance is not a no-op. -/
theorem claim5_close_counterexample :
    popoverHandleClose (popoverHandleClose ⟨true, 1, 0⟩) ≠
      popoverHandleClose ⟨true, 1, 0⟩ ∧
    (popoverHandleClose (popoverHandleClose ⟨true, 1, 0⟩)).onCloseCount
      = 2 ∧
    (popoverHandleClose ⟨true, 1, 0⟩).onCloseCount = 1 := by
  refine ⟨?_, by decide, by decide⟩
  decide

/-- Claim C5, amended: handleClose is idempotent on the open flag —
after one or two calls the instance is closed and the flags agree —
but every call, including one on an already-closed instance,
increments the onClose notification count, so two consecutive calls
produce exactly two onClose notifications. -/
theorem claim5_amended_close (s : PopoverState) :
    (popoverHandleClose s).internalIsOpen = false ∧
    (popoverHandleClose (popoverHandleClose s)).internalIsOpen =
      (popoverHandleClose s).internalIsOpen ∧
    (popoverHandleClose s).onCloseCount = s.onCloseCount + 1 ∧
    (popoverHandleClose (popoverHandleClose s)).onCloseCount =
      s.onCloseCount + 2 := by
  simp [popoverHandleClose]

/-- Claim C6, counterexample: from the closed initial state a single
trigger click moves the projected lifecycle state directly from
Closed to Open, and Closed to Open is not an edge of the linear
four-state chain, so the code takes a transition outside the chain
(the Opening and Closing states are never inhabited). -/
theorem claim6_linearity_counterexample :
    popoverProj (PopoverState.mk false 0 0).internalIsOpen =
      OverlayState.Closed ∧
    popoverProj (popoverStep .toggle ⟨false, 0, 0⟩).internalIsOpen =
      OverlayState.Open ∧
    chainEdge .Closed .Open = false := by
  refine ⟨?_, ?_, by decide⟩ <;>
    simp [popoverProj, popoverStep, popoverHandleToggle]

/-- Claim C6, amended: the Popover lifecycle is a two-state toggle,
not the four-state chain: every external event either sets the open
flag to false (all dismissal paths) or negates it (the trigger
toggle), and the projected lifecycle state is never Opening or
Closing. -/
theorem claim6_amended_two_state (e : PopoverEvent) (s : PopoverState) :
    (popoverStep e s).internalIsOpen =
      (if e = .toggle then !s.internalIsOpen else false) ∧
    popoverProj (popoverStep e s).internalIsOpen ≠ OverlayState.Opening ∧
    popoverProj (popoverStep e s).internalIsOpen ≠ OverlayState.Closing := by
  cases e <;> cases h : s.internalIsOpen <;>
    simp [popoverStep, popoverHandleToggle, popoverHandleClose,
      popoverProj, h]

/-- Claim C7, counterexample: the string diagonal is outside the twelve
valid placements, yet the Popper position computation returns a
normal position for it — the default switch branch — identical to
the bottom-start result (128, 100) at the sample rects; nothing
fails fast and no error value exists in the computation. -/
theorem claim7_silent_default_counterexample :
    ("diagonal" ∉ placementValues) ∧
    popperBasePos "diagonal" ⟨100, 100, 50, 20⟩ ⟨0, 0, 120, 40⟩ 0 8 =
      popperBasePos "bottom-start" ⟨100, 100, 50, 20⟩ ⟨0, 0, 120, 40⟩ 0 8 ∧
    popperBasePos "diagonal" ⟨100, 100, 50, 20⟩ ⟨0, 0, 120, 40⟩ 0 8 =
      (128, 100) := by
  refine ⟨by decide, ?_, ?_⟩ <;>
    (simp [popperBasePos, Rect.bottom]; try norm_num)

/-- Claim C7, amended: a placement value outside the twelve valid
side-and-alignment combinations is silently handled by the default
switch branch — the Popper computation positions it exactly like
bottom-start and the Popover computation like centered bottom — and
no error is raised at construction or positioning time. -/
theorem claim7_amended_default_branch (s : String)
    (refRect popperRect triggerRect contentRect : Rect) (ox oy off : ℚ)
    (h : s ∉ placementValues) :
    popperBasePos s refRect popperRect ox oy =
      (refRect.bottom + oy, refRect.left + ox) ∧
    popoverBasePos s triggerRect contentRect off =
      (triggerRect.bottom + off,
       triggerRect.left + triggerRect.width / 2 - contentRect.width / 2) := by
  simp only [placementValues, List.mem_cons, List.not_mem_nil, or_false,
    not_or] at h
  obtain ⟨h1, h2, h3, h4, h5, h6, h7, h8, h9, h10, h11, h12⟩ := h
  constructor <;>
    simp [popperBasePos, popoverBasePos, h1, h2, h3, h4, h5, h6, h7, h8,
      h9, h10, h11, h12]

/-- Claim C7, amended, witness at the unknown placement diagonal. -/
theorem claim7_amended_default_branch_witness :
    popperBasePos "diagonal" ⟨100, 100, 50, 20⟩ ⟨0, 0, 120, 40⟩ 0 8 =
      ((⟨100, 100, 50, 20⟩ : Rect).bottom + 8,
       (⟨100, 100, 50, 20⟩ : Rect).left + 0) ∧
    popoverBasePos "diagonal" ⟨100, 100, 50, 20⟩ ⟨0, 0, 120, 40⟩ 8 =
      ((⟨100, 100, 50, 20⟩ : Rect).bottom + 8,
       (⟨100, 100, 50, 20⟩ : Rect).left +
         (⟨100, 100, 50, 20⟩ : Rect).width / 2 -
         (⟨0, 0, 120, 40⟩ : Rect).width / 2) :=
  claim7_amended_default_branch "diagonal" ⟨100, 100, 50, 20⟩
    ⟨0, 0, 120, 40⟩ ⟨100, 100, 50, 20⟩ ⟨0, 0, 120, 40⟩ 0 8 8 (by decide)

/-- Claim C8, counterexample: closing a Modal whose stored
previousActiveElement is detached from the document still calls
focus() on that element (the source guard only tests that the ref is
non-null and the element has a focus property, never attachment), and
after the close the snapshot ref still holds the element instead of
being cleared. -/
theorem claim8_focus_counterexample :
    (modalFocusEffect false none
      ⟨some ⟨1, false, true⟩, true⟩).2 = [⟨1, false, true⟩] ∧
    (DomElement.mk 1 false true).attachedToDoc = false ∧
    (modalFocusEffect false none
      ⟨some ⟨1, false, true⟩, true⟩).1.previousActiveElement =
      some ⟨1, false, true⟩ := by
  refine ⟨?_, by decide, ?_⟩ <;> simp [modalFocusEffect]

/-- Claim C8, amended: on every close transition the Modal calls
focus() on the stored previousActiveElement whenever it is non-null
and exposes a focus property, with no document-attachment check, and
the snapshot ref keeps its value after the close — it is only
overwritten by the next open transition. -/
theorem claim8_amended_focus (a : Option DomElement)
    (s : ModalFocusState) :
    (modalFocusEffect false a s).1.previousActiveElement =
      s.previousActiveElement ∧
    (modalFocusEffect false a s).2 =
      (match s.previousActiveElement with
       | some e => if e.focusMethod then [e] else []
       | none => []) := by
  rcases h : s.previousActiveElement with _ | e
  · simp [modalFocusEffect, h]
  · by_cases hf : e.focusMethod <;> simp [modalFocusEffect, h, hf]

/-- Claim C9: the rendered popper markup is independent of the computed
position: two arbitrary popperStyles values and zIndex values yield
identical rendered output, the rendered element carries no inline
style, and its data-placement is exactly the requested placement. -/
theorem claim9_style_independence (placement className : String)
    (st1 st2 : PopperStyles) (z1 z2 : ℚ) (ch : String) :
    popperContent true placement className st1 z1 ch =
      popperContent true placement className st2 z2 ch ∧
    (popperContent true placement className st1 z1 ch).map
      PopperRendered.style = some none ∧
    (popperContent true placement className st1 z1 ch).map
      PopperRendered.dataPlacement = some placement := by
  simp [popperContent]

/-- Claim C10: for a range Slider holding an array value, a track click
leaves the value unchanged and produces no onChange notification,
for every click position, bounds, step, disabled flag and control
mode (the commit in the range branch of handleTrackClick is
commented out). -/
theorem claim10_range_track_click_noop (disabled isControlled : Bool)
    (min max step clientX rectLeft rectWidth lo hi : ℚ)
    (v : SliderValue) (hv : v = .pair lo hi) :
    handleTrackClick disabled true isControlled min max step clientX
      rectLeft rectWidth v = (v, []) := by
  subst hv
  by_cases hd : disabled <;> simp [handleTrackClick, hd]

/-- Claim C10, witness: a concrete click at 37 percent of a 200px track
on an enabled, uncontrolled range slider over [0, 100] holding
(20, 80). -/
theorem claim10_range_track_click_noop_witness :
    handleTrackClick false true false 0 100 1 37 0 200
      (.pair 20 80) = (SliderValue.pair 20 80, []) :=
  claim10_range_track_click_noop false false 0 100 1 37 0 200 20 80
    (SliderValue.pair 20 80) rfl
